import Mathlib

set_option maxHeartbeats 1000000

/-!
Shallow embedding of the proximity/navigation engine of `src/main.py`
(a Telegram walking-tour bot).  Python floats are modelled as real numbers,
SQL `TIMESTAMP`/`DATE` values as rationals (hours on one common clock), and
the per-user rows of the SQLite tables `user_tracking`, `user_stats` and
`visit_log` as explicit record types.  Each database-mutating Python function
becomes a pure state-passing function on those records; the current time
(`datetime.utcnow()` / SQLite `CURRENT_TIMESTAMP` / `date('now')`) is passed
in as an explicit clock argument.
-/

namespace Pushkin

/-- `RADIUS = 20` metres, the auto-surface / arrival radius (src/main.py line 30). -/
def RADIUS : ℝ := 20

/-- `REVISIT_HOURS = 24`, the revisit cool-down in hours (src/main.py line 31). -/
def REVISIT_HOURS : ℚ := 24

/-- `R_EARTH = 6_371_000` metres (src/main.py line 129). -/
def R_EARTH : ℝ := 6371000

/-- `math.radians`: degrees to radians. -/
noncomputable def radians (x : ℝ) : ℝ := x * (Real.pi / 180)

/-- `haversine(lat1, lon1, lat2, lon2)` (src/main.py lines 131-136):
great-circle distance in metres on a sphere of radius `R_EARTH`. -/
noncomputable def haversine (lat1 lon1 lat2 lon2 : ℝ) : ℝ :=
  let dphi := radians (lat2 - lat1)
  let dlam := radians (lon2 - lon1)
  let phi1 := radians lat1
  let phi2 := radians lat2
  let a := Real.sin (dphi / 2) ^ 2 +
    Real.cos phi1 * Real.cos phi2 * Real.sin (dlam / 2) ^ 2
  2 * R_EARTH * Real.arcsin (Real.sqrt a)

/-- The distance expression used inside the SQL of `nearest` and
`find_nearest_unvisited` (src/main.py lines 142 and 153):
`111000*sqrt(pow(lat-?,2)+pow((lon-?)*0.6,2))`, where `lat`/`lon` are the
POI's columns and the placeholders are the query position.
Arguments: query position first, then the POI coordinates. -/
noncomputable def sqlDist (lat lon plat plon : ℝ) : ℝ :=
  111000 * Real.sqrt ((plat - lat) ^ 2 + ((plon - lon) * 0.6) ^ 2)

/-- A row of the `poi` table (id, coordinates; name/summary are irrelevant to
the claims and omitted). -/
structure POI where
  id : ℤ
  lat : ℝ
  lon : ℝ

/-- A row of the `visit_log` table. -/
structure Visit where
  user_id : ℤ
  poi_id : ℤ
  visited_at : ℚ
deriving DecidableEq

/-- A row of the `user_tracking` table (src/main.py lines 60-68).  Schema
defaults: `last_update TIMESTAMP DEFAULT CURRENT_TIMESTAMP`,
`notified_50m BOOLEAN DEFAULT 0`, `notified_arrived BOOLEAN DEFAULT 0`;
`target_poi_id` has no default (NULL). -/
structure TrackingRow where
  last_lat : Option ℝ
  last_lon : Option ℝ
  last_update : Option ℚ
  target_poi_id : Option ℤ
  notified_50m : Bool
  notified_arrived : Bool

/-- A row of the `user_stats` table (src/main.py lines 69-78). -/
structure StatsRow where
  total_distance : ℝ
  total_time : ℤ
  first_visit : Option ℚ
  last_visit : Option ℚ
  current_streak : ℤ
  max_streak : ℤ
  favorite_poi_id : Option ℤ

/-- The per-user persistent state touched by the claims: the user's
`user_tracking` row (if any), the full `visit_log`, and the user's
`user_stats` row (if any).  The POI catalog is passed separately since it is
read-only. -/
structure ServerState where
  track : Option TrackingRow
  visits : List Visit
  stats : Option StatsRow

/-- The `NOT EXISTS(SELECT 1 FROM visit_log WHERE user_id=? AND poi_id=poi.id
AND visited_at>?)` filter of `nearest`/`find_nearest_unvisited`
(src/main.py lines 143-144 and 154-155), with
`? = now - timedelta(hours=REVISIT_HOURS)`. -/
def notVisitedRecently (visits : List Visit) (uid pid : ℤ) (now : ℚ) : Bool :=
  !(visits.any fun v =>
    v.user_id == uid && v.poi_id == pid && decide (now - REVISIT_HOURS < v.visited_at))

/-- The comparison underlying `ORDER BY dist` in the two geo queries. -/
def distLe (lat lon : ℝ) (p q : POI) : Prop :=
  sqlDist lat lon p.lat p.lon ≤ sqlDist lat lon q.lat q.lon

noncomputable instance (lat lon : ℝ) : DecidableRel (distLe lat lon) :=
  fun _ _ => Real.decidableLE _ _

instance (lat lon : ℝ) : IsTotal POI (distLe lat lon) :=
  ⟨fun _ _ => le_total _ _⟩

instance (lat lon : ℝ) : IsTrans POI (distLe lat lon) :=
  ⟨fun _ _ _ => le_trans⟩

/-- `ORDER BY dist` modelled as sorting the candidate rows. -/
noncomputable def orderByDist (lat lon : ℝ) (l : List POI) : List POI :=
  List.insertionSort (distLe lat lon) l

/-- `nearest(uid, lat, lon)` (src/main.py lines 138-146): among POIs passing
the cool-down filter and with `dist <= RADIUS`, the row with least `dist`
(`ORDER BY dist LIMIT 1`), together with its `dist` column; `None` when no
row qualifies. -/
noncomputable def nearest (pois : List POI) (visits : List Visit) (uid : ℤ)
    (lat lon : ℝ) (now : ℚ) : Option (POI × ℝ) :=
  let cands := pois.filter fun p =>
    notVisitedRecently visits uid p.id now &&
      decide (sqlDist lat lon p.lat p.lon ≤ RADIUS)
  ((orderByDist lat lon cands).head?).map fun p =>
    (p, sqlDist lat lon p.lat p.lon)

/-- `find_nearest_unvisited(uid, lat, lon, limit)` (src/main.py lines
148-156): all POIs passing the cool-down filter, ordered by `dist`, first
`limit` rows, each with its `dist` column. -/
noncomputable def find_nearest_unvisited (pois : List POI) (visits : List Visit)
    (uid : ℤ) (lat lon : ℝ) (now : ℚ) (lim : ℕ) : List (POI × ℝ) :=
  let cands := pois.filter fun p => notVisitedRecently visits uid p.id now
  ((orderByDist lat lon cands).take lim).map fun p =>
    (p, sqlDist lat lon p.lat p.lon)

/-- `get_poi_by_id` (src/main.py lines 158-160). -/
def get_poi_by_id (pois : List POI) (pid : ℤ) : Option POI :=
  pois.find? fun p => p.id == pid

/-- `SELECT COUNT(*) FROM visit_log WHERE user_id=? AND poi_id=?` —
the per-(user, poi) visit count grouped over in `update_visit_stats`. -/
def visitCount (visits : List Visit) (uid pid : ℤ) : ℕ :=
  (visits.filter fun v => v.user_id == uid && v.poi_id == pid).length

/-- The strict preference used to model `ORDER BY cnt DESC LIMIT 1` in
`update_visit_stats`: higher count wins; SQLite leaves the order of
equal-count groups unspecified, modelled here as lowest `poi_id` first. -/
def favPref (visits : List Visit) (uid p b : ℤ) : Prop :=
  visitCount visits uid b < visitCount visits uid p ∨
    (visitCount visits uid p = visitCount visits uid b ∧ p < b)

instance (visits : List Visit) (uid p b : ℤ) : Decidable (favPref visits uid p b) := by
  unfold favPref; infer_instance

/-- The distinct `poi_id` groups of `GROUP BY poi_id` over the user's
`visit_log` rows. -/
def userPois (visits : List Visit) (uid : ℤ) : List ℤ :=
  ((visits.filter fun v => v.user_id == uid).map fun v => v.poi_id).dedup

/-- One comparison step of the modelled `ORDER BY cnt DESC LIMIT 1`. -/
def favStep (visits : List Visit) (uid : ℤ) (best : Option ℤ) (pid : ℤ) : Option ℤ :=
  match best with
  | none => some pid
  | some b => if favPref visits uid pid b then some pid else some b

/-- The `SELECT poi_id, COUNT(*) as cnt FROM visit_log WHERE user_id=?
GROUP BY poi_id ORDER BY cnt DESC LIMIT 1` query of `update_visit_stats`
(src/main.py lines 176-179).  SQLite does not specify which group comes
first among ties on `cnt`; the tie is modelled as the lowest `poi_id`. -/
def favoriteQuery (visits : List Visit) (uid : ℤ) : Option ℤ :=
  (userPois visits uid).foldl (favStep visits uid) none

/-- `update_visit_stats(uid)` (src/main.py lines 168-181): `INSERT OR IGNORE`
a fresh stats row with `first_visit = date('now')`, always refresh
`last_visit`, and overwrite `favorite_poi_id` with the top `poi_id` of
`favoriteQuery` when the user has any logged visit. -/
def update_visit_stats (now : ℚ) (uid : ℤ) (st : ServerState) : ServerState :=
  let stats0 : StatsRow :=
    match st.stats with
    | none => { total_distance := 0, total_time := 0, first_visit := some now,
                last_visit := none, current_streak := 0, max_streak := 0,
                favorite_poi_id := none }
    | some s => s
  let stats1 := { stats0 with last_visit := some now }
  let stats2 :=
    match favoriteQuery st.visits uid with
    | some f => { stats1 with favorite_poi_id := some f }
    | none => stats1
  { st with stats := some stats2 }

/-- `mark_visit(uid, pid)` (src/main.py lines 162-166): append a
`visit_log` row stamped with the current time, then `update_visit_stats`. -/
def mark_visit (now : ℚ) (uid pid : ℤ) (st : ServerState) : ServerState :=
  update_visit_stats now uid
    { st with visits := st.visits ++ [⟨uid, pid, now⟩] }

/-- `set_navigation_target(uid, poi_id)` (src/main.py lines 197-203):
`INSERT OR REPLACE INTO user_tracking(user_id, target_poi_id, notified_50m,
notified_arrived) VALUES(?, ?, 0, 0)`.  The row is replaced wholesale;
unlisted columns take their schema defaults: `last_lat`/`last_lon` NULL and
`last_update` the current timestamp. -/
def set_navigation_target (now : ℚ) (pid : ℤ) (st : ServerState) : ServerState :=
  let row : TrackingRow :=
    { last_lat := none, last_lon := none, last_update := some now,
      target_poi_id := some pid, notified_50m := false, notified_arrived := false }
  { st with track := some row }

/-- `clear_navigation_target(uid)` (src/main.py lines 205-208): an `UPDATE`
that nulls the target and zeroes both flags, leaving the position columns
alone; a no-op when the user has no row. -/
def clear_navigation_target (st : ServerState) : ServerState :=
  { st with track := st.track.map fun r =>
      { r with target_poi_id := none, notified_50m := false,
               notified_arrived := false } }

/-- `update_user_position(uid, lat, lon)` (src/main.py lines 210-234):
`INSERT OR IGNORE` the stats row, read the previous `last_lat`/`last_lon`,
`INSERT OR REPLACE INTO user_tracking(user_id, last_lat, last_lon,
last_update) VALUES(?, ?, ?, datetime('now'))` — which replaces the row
wholesale, so `target_poi_id` falls back to NULL and both flags to 0 — and
then, when the previous row exists and `last['last_lat']` is truthy in
Python (non-NULL and not `0.0`), add `haversine(prior, new)/1000` to
`total_distance` when that distance exceeds 5 metres.  (The source reads
`last['last_lon']` without a NULL check in that branch; no writer produces
a row with `last_lat` set and `last_lon` NULL, and the model supplies `0`
for that unreachable combination.) -/
noncomputable def update_user_position (now : ℚ) (lat lon : ℝ)
    (st : ServerState) : ServerState :=
  let stats0 : StatsRow :=
    match st.stats with
    | none => { total_distance := 0, total_time := 0, first_visit := some now,
                last_visit := none, current_streak := 0, max_streak := 0,
                favorite_poi_id := none }
    | some s => s
  let last := st.track
  let track' : TrackingRow :=
    { last_lat := some lat, last_lon := some lon, last_update := some now,
      target_poi_id := none, notified_50m := false, notified_arrived := false }
  let stats1 :=
    match last with
    | none => stats0
    | some r =>
      match r.last_lat with
      | none => stats0
      | some llat =>
        if llat = 0 then stats0
        else
          let dist := haversine llat (r.last_lon.getD 0) lat lon
          if 5 < dist then
            { stats0 with total_distance := stats0.total_distance + dist / 1000 }
          else stats0
  { st with track := some track', stats := some stats1 }

/-- The user-visible outcome of one live-location report
(`handle_live_location`, src/main.py lines 621-668): the choose-target
keyboard, the one-shot arrival message (`show_poi_info`), the one-shot
"you are close" message, or the routine distance/direction refresh.  The
compass glyph and message text are presentation only and not modelled. -/
inductive Event where
  | chooseTarget (cands : List (POI × ℝ))
  | arrived (p : POI) (dist : ℝ)
  | near (p : POI) (dist : ℝ)
  | progress (p : POI) (dist : ℝ)

/-- `handle_live_location(u, ctx, loc)` (src/main.py lines 621-668) as a step
function: given the catalog, the user id, the clock and the reported
position, it returns the new state and the emitted event (if any).
With no row or no target it only offers candidates (no state change).
With a target: `dist = haversine(loc, poi)`; `dist <= RADIUS` and the
arrived flag unset → `show_poi_info` (which records a visit via
`mark_visit`), then `clear_navigation_target`, then an `UPDATE` setting
`notified_arrived=1`; `dist <= 50` and the 50 m flag unset → set
`notified_50m=1`; otherwise a progress refresh with no state change.
When `get_poi_by_id` finds nothing the source raises before any write
(`poi['lat']` on `None`), modelled as no state change and no event. -/
noncomputable def handle_live_location (pois : List POI) (uid : ℤ) (now : ℚ)
    (lat lon : ℝ) (st : ServerState) : ServerState × Option Event :=
  let noTarget : ServerState × Option Event :=
    let cands := find_nearest_unvisited pois st.visits uid lat lon now 3
    (st, if cands.isEmpty then none else some (.chooseTarget cands))
  match st.track with
  | none => noTarget
  | some track =>
    match track.target_poi_id with
    | none => noTarget
    | some tpid =>
      match get_poi_by_id pois tpid with
      | none => (st, none)
      | some poi =>
        let dist := haversine lat lon poi.lat poi.lon
        if dist ≤ RADIUS then
          if track.notified_arrived = false then
            let st1 := mark_visit now uid poi.id st
            let st2 := clear_navigation_target st1
            let st3 := { st2 with track := st2.track.map fun r =>
              { r with notified_arrived := true } }
            (st3, some (.arrived poi dist))
          else (st, none)
        else if dist ≤ 50 then
          if track.notified_50m = false then
            let st' := { st with track := some { track with notified_50m := true } }
            (st', some (.near poi dist))
          else (st, none)
        else (st, some (.progress poi dist))

/-- A sequence of live-location reports (each with its clock value and
position) folded through `handle_live_location`, collecting the emitted
events in order. -/
noncomputable def runReports (pois : List POI) (uid : ℤ) :
    ServerState → List (ℚ × ℝ × ℝ) → ServerState × List Event
  | st, [] => (st, [])
  | st, (now, lat, lon) :: rest =>
    let step := handle_live_location pois uid now lat lon st
    let tail := runReports pois uid step.1 rest
    (tail.1, step.2.toList ++ tail.2)

/-- Recognises the arrival event. -/
def isArrivedEvent : Event → Bool
  | .arrived _ _ => true
  | _ => false

/-- Recognises the near event. -/
def isNearEvent : Event → Bool
  | .near _ _ => true
  | _ => false

/-- Number of arrival events in a list. -/
def arrivedCount (evs : List Event) : ℕ := (evs.filter isArrivedEvent).length

/-- Number of near events in a list. -/
def nearCount (evs : List Event) : ℕ := (evs.filter isNearEvent).length

lemma radians_zero : radians 0 = 0 := by simp [radians]

lemma radians_neg (x : ℝ) : radians (-x) = -radians x := by
  simp [radians]

lemma radians_ninety : radians 90 = Real.pi / 2 := by
  unfold radians; ring

lemma radians_one_eighty : radians 180 = Real.pi := by
  unfold radians; field_simp

lemma haversine_self (lat lon : ℝ) : haversine lat lon lat lon = 0 := by
  unfold haversine
  simp [radians_zero, Real.sqrt_zero, Real.arcsin_zero]

lemma haversine_comm (lat1 lon1 lat2 lon2 : ℝ) :
    haversine lat1 lon1 lat2 lon2 = haversine lat2 lon2 lat1 lon1 := by
  simp only [haversine]
  have hsq : ∀ x : ℝ, Real.sin (radians (-x) / 2) ^ 2 = Real.sin (radians x / 2) ^ 2 := by
    intro x
    rw [radians_neg, neg_div, Real.sin_neg, neg_sq]
  have h1 : lat1 - lat2 = -(lat2 - lat1) := by ring
  have h2 : lon1 - lon2 = -(lon2 - lon1) := by ring
  rw [h1, h2, hsq, hsq, mul_comm (Real.cos (radians lat2))]

lemma haversine_zero_ninety : haversine 0 0 0 90 = R_EARTH * (Real.pi / 2) := by
  have h4 : (0:ℝ) ≤ Real.pi / 4 := by positivity
  have h4' : Real.pi / 4 ≤ Real.pi := by linarith [Real.pi_pos]
  have hs : (0:ℝ) ≤ Real.sin (Real.pi / 4) := Real.sin_nonneg_of_nonneg_of_le_pi h4 h4'
  have ha : -(Real.pi / 2) ≤ Real.pi / 4 := by linarith [Real.pi_pos]
  have hb : Real.pi / 4 ≤ Real.pi / 2 := by linarith [Real.pi_pos]
  simp only [haversine, sub_zero, radians_zero, zero_div, Real.sin_zero, Real.cos_zero,
    radians_ninety, one_mul]
  rw [show Real.pi / 2 / 2 = Real.pi / 4 by ring]
  rw [show (0:ℝ) ^ 2 + Real.sin (Real.pi / 4) ^ 2 = Real.sin (Real.pi / 4) ^ 2 by ring]
  rw [Real.sqrt_sq hs, Real.arcsin_sin ha hb]
  ring

lemma haversine_zero_one_eighty : haversine 0 0 0 180 = R_EARTH * Real.pi := by
  simp only [haversine, sub_zero, radians_zero, zero_div, Real.sin_zero, Real.cos_zero,
    radians_one_eighty, one_mul]
  rw [show (0:ℝ) ^ 2 + Real.sin (Real.pi / 2) ^ 2 = Real.sin (Real.pi / 2) ^ 2 by ring]
  rw [Real.sin_pi_div_two, one_pow, Real.sqrt_one, Real.arcsin_one]
  ring

lemma sqlDist_self (lat lon : ℝ) : sqlDist lat lon lat lon = 0 := by
  simp [sqlDist]

lemma sqlDist_zero_one_eighty : sqlDist 0 0 0 180 = 11988000 := by
  unfold sqlDist
  rw [show ((0:ℝ) - 0) ^ 2 + ((180 - 0) * 0.6) ^ 2 = 108 ^ 2 by norm_num]
  rw [Real.sqrt_sq (by norm_num : (0:ℝ) ≤ 108)]
  norm_num

/-- The SQL distance of the geo queries disagrees with `haversine`:
at the antipodal point on the equator they differ by a factor above 1.6. -/
lemma sqlDist_ne_haversine : sqlDist 0 0 0 180 ≠ haversine 0 0 0 180 := by
  rw [sqlDist_zero_one_eighty, haversine_zero_one_eighty]
  have h3 : (3:ℝ) < Real.pi := Real.pi_gt_three
  unfold R_EARTH
  intro h
  nlinarith

lemma haversine_zero_ninety_gt_five : 5 < haversine 0 0 0 90 := by
  rw [haversine_zero_ninety]
  have h3 : (3:ℝ) < Real.pi := Real.pi_gt_three
  unfold R_EARTH
  nlinarith

lemma orderByDist_singleton (lat lon : ℝ) (p : POI) :
    orderByDist lat lon [p] = [p] := by
  simp [orderByDist, List.insertionSort, List.orderedInsert]

/-- C9: for all positions `a` and `b`, `distance(a,a) = 0` and
`distance(a,b) = distance(b,a)`.  In the real-number model of `haversine`
both identities hold exactly, which implies the claim's `1e-6` relative
tolerance. -/
theorem C9_haversine_zero_self_and_symmetric :
    ∀ lat1 lon1 lat2 lon2 : ℝ,
      haversine lat1 lon1 lat1 lon1 = 0 ∧
      haversine lat1 lon1 lat2 lon2 = haversine lat2 lon2 lat1 lon1 :=
  fun lat1 lon1 lat2 lon2 =>
    ⟨haversine_self lat1 lon1, haversine_comm lat1 lon1 lat2 lon2⟩

/-- C4, counterexample: the claim says the `distanceMeters` computed by the
proximity lookups equals the haversine distance.  For the user at `(0,0)`
and the single POI at `(0,180)`, `find_nearest_unvisited` returns the SQL
value `111000*sqrt((Δlat)^2+((Δlon)*0.6)^2) = 11988000`, while the
haversine distance is `6371000*π > 19000000`. -/
theorem C4_counterexample_planar_vs_haversine :
    find_nearest_unvisited [⟨1, 0, 180⟩] [] 7 0 0 0 3 =
      [(⟨1, 0, 180⟩, sqlDist 0 0 0 180)] ∧
    sqlDist 0 0 0 180 ≠ haversine 0 0 0 180 := by
  constructor
  · simp [find_nearest_unvisited, notVisitedRecently, orderByDist,
      List.insertionSort, List.orderedInsert]
  · exact sqlDist_ne_haversine

/-- C4, amended: the `distanceMeters` value computed and returned by the
proximity lookups (`find_nearest_unvisited` and the auto-surface query
`nearest`) is in both cases the planar approximation
`111000*sqrt((Δlat)^2+((0.6*Δlon))^2)` — the two lookups agree with each
other — but this value differs from the great-circle haversine distance in
general. -/
theorem C4_lookups_return_sql_distance :
    (∀ (pois : List POI) (visits : List Visit) (uid : ℤ) (lat lon : ℝ)
        (now : ℚ) (lim : ℕ),
      (find_nearest_unvisited pois visits uid lat lon now lim).map Prod.snd =
        (find_nearest_unvisited pois visits uid lat lon now lim).map
          fun pd => sqlDist lat lon pd.1.lat pd.1.lon) ∧
    (∀ (pois : List POI) (visits : List Visit) (uid : ℤ) (lat lon : ℝ) (now : ℚ),
      (nearest pois visits uid lat lon now).map Prod.snd =
        (nearest pois visits uid lat lon now).map
          fun pd => sqlDist lat lon pd.1.lat pd.1.lon) ∧
    sqlDist 0 0 0 180 ≠ haversine 0 0 0 180 := by
  refine ⟨?_, ?_, sqlDist_ne_haversine⟩
  · intro pois visits uid lat lon now lim
    simp only [find_nearest_unvisited, List.map_map]
    rfl
  · intro pois visits uid lat lon now
    simp only [nearest, Option.map_map]
    rfl

/-- C10, counterexample: the claim says that immediately after `setTarget`
the row's `last_lat`, `last_lon` and `last_update` are all null.  Starting
from a row with a recorded position, `set_navigation_target` at clock `5`
leaves `last_update = 5` — the schema default `CURRENT_TIMESTAMP` — not
null. -/
theorem C10_counterexample_last_update_not_null :
    (set_navigation_target 5 9
        ⟨some ⟨some 1, some 2, some 3, none, false, false⟩, [], none⟩).track.map
      TrackingRow.last_update = some (some 5) ∧
    some (5:ℚ) ≠ (none : Option ℚ) := by
  exact ⟨rfl, by simp⟩

/-- C10, amended: `set_navigation_target` replaces the user's
`user_tracking` row wholesale regardless of what was recorded before:
`last_lat` and `last_lon` become null and both notification flags false with
the new target stored, but `last_update` is set to the current timestamp by
the column default rather than to null.  Nothing else changes. -/
theorem C10_set_target_replaces_row :
    ∀ (now : ℚ) (pid : ℤ) (st : ServerState),
      (set_navigation_target now pid st).track =
          some ⟨none, none, some now, some pid, false, false⟩ ∧
      (set_navigation_target now pid st).visits = st.visits ∧
      (set_navigation_target now pid st).stats = st.stats :=
  fun _ _ _ => ⟨rfl, rfl, rfl⟩

/-- C1: the claim says a position report never changes `target_poi_id` and,
absent a threshold transition, touches only the position fields.  In fact
`update_user_position` writes the row with
`INSERT OR REPLACE INTO user_tracking(user_id, last_lat, last_lon,
last_update)`, which replaces the whole row: `target_poi_id` falls back to
NULL and both notification flags to 0 on every report, for every prior
state.  This also makes the live-navigation branch unreachable, since
`on_location` calls `update_user_position` before `handle_live_location`
reads the target. -/
theorem C1_report_wipes_target_and_flags :
    ∀ (now : ℚ) (lat lon : ℝ) (st : ServerState),
      (update_user_position now lat lon st).track =
        some ⟨some lat, some lon, some now, none, false, false⟩ :=
  fun _ _ _ _ => rfl

/-- C7: the claim says any prior recorded position leads to accumulation of
deltas above 5 m.  With a prior position at latitude exactly `0`, the check
`if last and last['last_lat']` treats the Python float `0.0` as falsy, so a
move of a quarter of the Earth's circumference (far above the 5 m floor)
adds nothing to `total_distance`. -/
theorem C7_zero_latitude_prior_skips_distance :
    5 < haversine 0 0 0 90 ∧
    (update_user_position 1 0 90
        ⟨some ⟨some 0, some 0, some 0, none, false, false⟩, [],
          some ⟨0, 0, some 0, none, 0, 0, none⟩⟩).stats =
      some ⟨0, 0, some 0, none, 0, 0, none⟩ := by
  refine ⟨haversine_zero_ninety_gt_five, ?_⟩
  simp [update_user_position]

/-- C7, normal case: with a prior recorded position whose latitude is not
the Python-falsy `0.0`, `update_user_position` adds `haversine(prior,new)/
1000` to `total_distance` exactly when that distance exceeds 5 m, and adds
nothing at all otherwise. -/
theorem C7_noise_floor_for_nonzero_latitude :
    ∀ (now : ℚ) (lat lon llat llon : ℝ) (tp : Option ℤ) (f50 fa : Bool)
      (visits : List Visit) (s : StatsRow),
      llat ≠ 0 →
      ((update_user_position now lat lon
          ⟨some ⟨some llat, some llon, some 0, tp, f50, fa⟩, visits, some s⟩).stats =
        if 5 < haversine llat llon lat lon then
          some { s with total_distance :=
            s.total_distance + haversine llat llon lat lon / 1000 }
        else some s) := by
  intro now lat lon llat llon tp f50 fa visits s hne
  simp only [update_user_position, Option.getD_some]
  rw [if_neg hne]
  split
  · rfl
  · rfl

/-- A concrete `user_stats` row used by witnesses. -/
def sampleStats : StatsRow := ⟨0, 0, some 0, none, 0, 0, none⟩

/-- Witness for the `llat ≠ 0` hypothesis of the C7 normal-case theorem. -/
theorem C7_noise_floor_witness :
    (1:ℝ) ≠ 0 ∧
    ((update_user_position 2 1 0
        ⟨some ⟨some 1, some 0, some 0, none, false, false⟩, [], some sampleStats⟩).stats =
      if 5 < haversine 1 0 1 0 then
        some { sampleStats with total_distance := sampleStats.total_distance + haversine 1 0 1 0 / 1000 }
      else some sampleStats) := by
  refine ⟨by norm_num, ?_⟩
  exact C7_noise_floor_for_nonzero_latitude 2 1 0 1 0 none false false []
    sampleStats (by norm_num)

lemma mark_visit_track (now : ℚ) (uid pid : ℤ) (st : ServerState) :
    (mark_visit now uid pid st).track = st.track := rfl

/-- The part of the claimed C3 invariant that does survive the arrival
handling: whenever `target_poi_id` is null, `notified_50m` is false. -/
def NavInv (st : ServerState) : Prop :=
  ∀ r, st.track = some r → r.target_poi_id = none → r.notified_50m = false

/-- C3, counterexample: the claimed invariant "whenever `target_poi_id` is
null both notification flags are false" is broken by the arrival handling:
`handle_live_location` first calls `clear_navigation_target` and then runs
`UPDATE user_tracking SET notified_arrived=1`, reaching a row with a null
target and `notified_arrived = true`.  Concretely: set POI 1 at `(10,20)`
as target, then report exactly that position. -/
theorem C3_counterexample_arrival_flag_with_null_target :
    (handle_live_location [⟨1, 10, 20⟩] 7 1 10 20
        (set_navigation_target 0 1 ⟨none, [], none⟩)).1.track =
      some ⟨none, none, some 0, none, false, true⟩ ∧
    (⟨none, none, some 0, none, false, true⟩ : TrackingRow).target_poi_id = none ∧
    (⟨none, none, some 0, none, false, true⟩ : TrackingRow).notified_arrived = true := by
  refine ⟨?_, rfl, rfl⟩
  have hz : haversine 10 20 10 20 = 0 := haversine_self 10 20
  simp only [handle_live_location, set_navigation_target, get_poi_by_id, List.find?,
    mark_visit_track, clear_navigation_target]
  norm_num [hz, RADIUS]

/-- C3, amended: immediately after a new target is set both flags are
false; `clear_navigation_target` and every position-row replacement by
`update_user_position` also leave both flags false; and the invariant
"`target_poi_id` null implies `notified_50m` false" is preserved by
`handle_live_location` — but `notified_arrived` can be true with a null
target, exactly in the state produced by the arrival transition. -/
theorem C3_invariant_weakened :
    (∀ (now : ℚ) (pid : ℤ) (st : ServerState),
      (set_navigation_target now pid st).track =
        some ⟨none, none, some now, some pid, false, false⟩) ∧
    (∀ st : ServerState, ∀ r, (clear_navigation_target st).track = some r →
      r.notified_50m = false ∧ r.notified_arrived = false) ∧
    (∀ (now : ℚ) (lat lon : ℝ) (st : ServerState), ∀ r,
      (update_user_position now lat lon st).track = some r →
      r.notified_50m = false ∧ r.notified_arrived = false) ∧
    (∀ (pois : List POI) (uid : ℤ) (now : ℚ) (lat lon : ℝ) (st : ServerState),
      NavInv st → NavInv (handle_live_location pois uid now lat lon st).1) := by
  refine ⟨fun _ _ _ => rfl, ?_, ?_, ?_⟩
  · intro st r hr
    simp only [clear_navigation_target, Option.map_eq_some'] at hr
    obtain ⟨r0, -, hr0⟩ := hr
    rw [← hr0]
    exact ⟨rfl, rfl⟩
  · intro now lat lon st r hr
    simp only [update_user_position, Option.some.injEq] at hr
    rw [← hr]
    exact ⟨rfl, rfl⟩
  · intro pois uid now lat lon st hInv
    rcases htr : st.track with _ | track
    · simp only [handle_live_location, htr]
      exact hInv
    · rcases htgt : track.target_poi_id with _ | tpid
      · simp only [handle_live_location, htr, htgt]
        exact hInv
      · rcases hpoi : get_poi_by_id pois tpid with _ | poi
        · simp only [handle_live_location, htr, htgt, hpoi]
          exact hInv
        · simp only [handle_live_location, htr, htgt, hpoi]
          split_ifs with h1 h2 h3 h4
          · -- arrival: target cleared, 50 m flag reset to false
            intro r hr
            simp only [mark_visit_track, clear_navigation_target, htr,
              Option.map_some', Option.some.injEq] at hr
            rw [← hr]
            intro _
            rfl
          · exact hInv
          · -- near: flag set, target still present
            intro r hr
            simp only [Option.some.injEq] at hr
            rw [← hr]
            intro hnone
            simp at hnone
          · exact hInv
          · exact hInv

/-- Witness for the `NavInv st` hypothesis of the C3 amended theorem, at the
empty per-user state. -/
theorem C3_invariant_weakened_witness :
    NavInv ⟨none, [], none⟩ ∧
    NavInv (handle_live_location [] 0 0 0 0 ⟨none, [], none⟩).1 := by
  have h0 : NavInv (⟨none, [], none⟩ : ServerState) := by
    intro r hr
    simp at hr
  exact ⟨h0, C3_invariant_weakened.2.2.2 [] 0 0 0 0 ⟨none, [], none⟩ h0⟩

/-- One arrival event remains possible iff the row has a target and the
arrived flag is still clear. -/
def arrivedBudget (st : ServerState) : ℕ :=
  match st.track with
  | none => 0
  | some r => if r.target_poi_id ≠ none ∧ r.notified_arrived = false then 1 else 0

/-- One near event remains possible iff the row has a target and the 50 m
flag is still clear. -/
def nearBudget (st : ServerState) : ℕ :=
  match st.track with
  | none => 0
  | some r => if r.target_poi_id ≠ none ∧ r.notified_50m = false then 1 else 0

lemma arrivedCount_append (a b : List Event) :
    arrivedCount (a ++ b) = arrivedCount a + arrivedCount b := by
  simp [arrivedCount, List.filter_append]

lemma nearCount_append (a b : List Event) :
    nearCount (a ++ b) = nearCount a + nearCount b := by
  simp [nearCount, List.filter_append]

/-- One `handle_live_location` step spends the corresponding budget for
each arrival / near event it emits. -/
lemma handle_live_location_budget (pois : List POI) (uid : ℤ) (now : ℚ)
    (lat lon : ℝ) (st : ServerState) :
    arrivedCount (handle_live_location pois uid now lat lon st).2.toList +
        arrivedBudget (handle_live_location pois uid now lat lon st).1 ≤
      arrivedBudget st ∧
    nearCount (handle_live_location pois uid now lat lon st).2.toList +
        nearBudget (handle_live_location pois uid now lat lon st).1 ≤
      nearBudget st := by
  rcases htr : st.track with _ | track
  · simp only [handle_live_location, htr]
    split <;>
      simp [arrivedCount, nearCount, arrivedBudget, nearBudget, htr,
        isArrivedEvent, isNearEvent]
  · rcases htgt : track.target_poi_id with _ | tpid
    · simp only [handle_live_location, htr, htgt]
      split <;>
        simp [arrivedCount, nearCount, arrivedBudget, nearBudget, htr, htgt,
          isArrivedEvent, isNearEvent]
    · rcases hpoi : get_poi_by_id pois tpid with _ | poi
      · simp only [handle_live_location, htr, htgt, hpoi]
        simp [arrivedCount, nearCount]
      · simp only [handle_live_location, htr, htgt, hpoi]
        split_ifs with h1 h2 h3 h4
        · -- arrival consumed: target cleared afterwards
          constructor
          · simp [arrivedCount, isArrivedEvent, arrivedBudget, mark_visit_track,
              clear_navigation_target, htr, htgt, h2]
          · simp [nearCount, isNearEvent, nearBudget, mark_visit_track,
              clear_navigation_target, htr, htgt]
        · simp [arrivedCount, nearCount]
        · -- near consumed: 50 m flag now set
          constructor
          · simp [arrivedCount, isArrivedEvent, arrivedBudget, htr, htgt]
          · simp [nearCount, isNearEvent, nearBudget, htr, htgt, h4]
        · simp [arrivedCount, nearCount]
        · constructor <;>
            simp [arrivedCount, nearCount, isArrivedEvent, isNearEvent]

/-- Over any report sequence, total arrival / near emissions are bounded by
the starting budgets. -/
lemma runReports_budget (pois : List POI) (uid : ℤ) :
    ∀ (reports : List (ℚ × ℝ × ℝ)) (st : ServerState),
      arrivedCount (runReports pois uid st reports).2 +
          arrivedBudget (runReports pois uid st reports).1 ≤ arrivedBudget st ∧
      nearCount (runReports pois uid st reports).2 +
          nearBudget (runReports pois uid st reports).1 ≤ nearBudget st := by
  intro reports
  induction reports with
  | nil =>
    intro st
    simp [runReports, arrivedCount, nearCount]
  | cons rep rest ih =>
    intro st
    obtain ⟨now, lat, lon⟩ := rep
    have hstep := handle_live_location_budget pois uid now lat lon st
    have htail := ih (handle_live_location pois uid now lat lon st).1
    simp only [runReports, arrivedCount_append, nearCount_append]
    omega

/-- C2: within one target assignment (from `set_navigation_target` until the
target is cleared or replaced), any sequence of live-location reports —
in particular every sequence that keeps the user within the thresholds —
emits the arrived event at most once and the near event at most once. -/
theorem C2_arrived_and_near_at_most_once :
    ∀ (pois : List POI) (uid : ℤ) (now0 : ℚ) (pid : ℤ) (st : ServerState)
      (reports : List (ℚ × ℝ × ℝ)),
      arrivedCount (runReports pois uid (set_navigation_target now0 pid st) reports).2 ≤ 1 ∧
      nearCount (runReports pois uid (set_navigation_target now0 pid st) reports).2 ≤ 1 := by
  intro pois uid now0 pid st reports
  have h := runReports_budget pois uid reports (set_navigation_target now0 pid st)
  have ha : arrivedBudget (set_navigation_target now0 pid st) = 1 := by
    simp [arrivedBudget, set_navigation_target]
  have hn : nearBudget (set_navigation_target now0 pid st) = 1 := by
    simp [nearBudget, set_navigation_target]
  omega

lemma head?_mem {α : Type} {l : List α} {a : α} (h : l.head? = some a) : a ∈ l := by
  cases l with
  | nil => simp at h
  | cons b t => simp at h; simp [h]

lemma mem_orderByDist {lat lon : ℝ} {l : List POI} {p : POI} :
    p ∈ orderByDist lat lon l ↔ p ∈ l :=
  (List.perm_insertionSort (distLe lat lon) l).mem_iff

lemma orderByDist_head_min {lat lon : ℝ} {l : List POI} {p : POI}
    (hh : (orderByDist lat lon l).head? = some p) :
    ∀ q ∈ l, sqlDist lat lon p.lat p.lon ≤ sqlDist lat lon q.lat q.lon := by
  intro q hq
  have hs : List.Sorted (distLe lat lon) (orderByDist lat lon l) :=
    List.sorted_insertionSort (distLe lat lon) l
  have hq' : q ∈ orderByDist lat lon l := mem_orderByDist.mpr hq
  rcases hsort : orderByDist lat lon l with _ | ⟨a, t⟩
  · rw [hsort] at hh; simp at hh
  · rw [hsort] at hh hq' hs
    simp only [List.head?_cons, Option.some.injEq] at hh
    subst hh
    rcases List.mem_cons.mp hq' with rfl | hqt
    · exact le_refl _
    · exact (List.sorted_cons.mp hs).1 q hqt

/-- A present cool-down visit makes the SQL filter reject the POI. -/
lemma notVisitedRecently_false {visits : List Visit} {uid pid : ℤ} {T now : ℚ}
    (hv : (⟨uid, pid, T⟩ : Visit) ∈ visits) (hlt : now < T + REVISIT_HOURS) :
    notVisitedRecently visits uid pid now = false := by
  simp only [notVisitedRecently, Bool.not_eq_false', List.any_eq_true]
  refine ⟨⟨uid, pid, T⟩, hv, ?_⟩
  simp only [Bool.and_eq_true, beq_self_eq_true, decide_eq_true_eq, true_and, and_true]
  linarith

/-- When every logged visit of the pair is old enough, the filter accepts. -/
lemma notVisitedRecently_true {visits : List Visit} {uid pid : ℤ} {T now : ℚ}
    (hall : ∀ v ∈ visits, v.user_id = uid → v.poi_id = pid → v.visited_at ≤ T)
    (hgt : T + REVISIT_HOURS < now) :
    notVisitedRecently visits uid pid now = true := by
  simp only [notVisitedRecently, Bool.not_eq_true', List.any_eq_false]
  intro v hv
  simp only [Bool.and_eq_true, beq_iff_eq, decide_eq_true_eq, not_and]
  intro h1 h2
  have := hall v hv h1.1 h1.2
  linarith

/-- C5: a POI visited by the user at time `T` is excluded from
`find_nearest_unvisited` and from the auto-surface query `nearest` at every
query time before `T + REVISIT_HOURS`; at query times after
`T + REVISIT_HOURS`, absent a newer visit, the POI passes the eligibility
filter again and (being in the catalog) reappears in the unlimited
nearest-unvisited ranking. -/
theorem C5_cooldown_exclusion_and_reeligibility :
    (∀ (pois : List POI) (visits : List Visit) (uid pid : ℤ) (T now : ℚ)
        (lat lon : ℝ) (lim : ℕ),
      (⟨uid, pid, T⟩ : Visit) ∈ visits → now < T + REVISIT_HOURS →
        (∀ pd ∈ find_nearest_unvisited pois visits uid lat lon now lim,
          pd.1.id ≠ pid) ∧
        (∀ pd, nearest pois visits uid lat lon now = some pd → pd.1.id ≠ pid)) ∧
    (∀ (pois : List POI) (visits : List Visit) (uid : ℤ) (p : POI) (T now : ℚ)
        (lat lon : ℝ),
      p ∈ pois →
      (∀ v ∈ visits, v.user_id = uid → v.poi_id = p.id → v.visited_at ≤ T) →
      T + REVISIT_HOURS < now →
        notVisitedRecently visits uid p.id now = true ∧
        p ∈ (find_nearest_unvisited pois visits uid lat lon now
              pois.length).map Prod.fst) := by
  constructor
  · intro pois visits uid pid T now lat lon lim hv hlt
    have hfalse := notVisitedRecently_false hv hlt
    constructor
    · intro pd hpd heq
      simp only [find_nearest_unvisited, List.mem_map] at hpd
      obtain ⟨p, hp, rfl⟩ := hpd
      have hp' : p ∈ orderByDist lat lon
          (pois.filter fun q => notVisitedRecently visits uid q.id now) :=
        List.take_subset lim _ hp
      have hp'' := mem_orderByDist.mp hp'
      have := (List.mem_filter.mp hp'').2
      rw [heq] at this
      rw [hfalse] at this
      exact Bool.false_ne_true this
    · intro pd hpd heq
      simp only [nearest, Option.map_eq_some'] at hpd
      obtain ⟨p, hp, rfl⟩ := hpd
      have hp' := mem_orderByDist.mp (head?_mem hp)
      have := (List.mem_filter.mp hp').2
      simp only [Bool.and_eq_true] at this
      rw [heq, hfalse] at this
      exact Bool.false_ne_true this.1
  · intro pois visits uid p T now lat lon hp hall hgt
    have htrue := notVisitedRecently_true hall hgt
    refine ⟨htrue, ?_⟩
    have hpf : p ∈ pois.filter fun q => notVisitedRecently visits uid q.id now :=
      List.mem_filter.mpr ⟨hp, htrue⟩
    have hlen : (orderByDist lat lon
        (pois.filter fun q => notVisitedRecently visits uid q.id now)).length ≤
          pois.length := by
      rw [orderByDist, List.length_insertionSort]
      exact List.length_filter_le _ _
    simp only [find_nearest_unvisited, List.map_map, List.take_of_length_le hlen,
      List.mem_map]
    exact ⟨p, mem_orderByDist.mpr hpf, rfl⟩

/-- Witness for C5: POI 1 visited at hour 10 is excluded at hour 20
(20 < 10 + 24) and passes the filter again at hour 40 (10 + 24 < 40). -/
theorem C5_cooldown_witness :
    ((⟨7, 1, 10⟩ : Visit) ∈ [(⟨7, 1, 10⟩ : Visit)] ∧ (20:ℚ) < 10 + REVISIT_HOURS ∧
      (∀ pd ∈ find_nearest_unvisited [⟨1, 0, 0⟩] [⟨7, 1, 10⟩] 7 0 0 20 3,
        pd.1.id ≠ 1)) ∧
    ((10:ℚ) + REVISIT_HOURS < 40 ∧
      (⟨1, 0, 0⟩ : POI) ∈ (find_nearest_unvisited [⟨1, 0, 0⟩] [⟨7, 1, 10⟩]
        7 0 0 40 ([(⟨1, 0, 0⟩ : POI)]).length).map Prod.fst) := by
  have h1 : (⟨7, 1, 10⟩ : Visit) ∈ [(⟨7, 1, 10⟩ : Visit)] := List.mem_singleton.mpr rfl
  have h2 : (20:ℚ) < 10 + REVISIT_HOURS := by norm_num [REVISIT_HOURS]
  have h3 : (10:ℚ) + REVISIT_HOURS < 40 := by norm_num [REVISIT_HOURS]
  have hall : ∀ v ∈ [(⟨7, 1, 10⟩ : Visit)], v.user_id = 7 → v.poi_id = 1 →
      v.visited_at ≤ 10 := by
    intro v hv
    rw [List.mem_singleton] at hv
    subst hv
    intro _ _
    norm_num
  refine ⟨⟨h1, h2, ?_⟩, ⟨h3, ?_⟩⟩
  · exact (C5_cooldown_exclusion_and_reeligibility.1 [⟨1, 0, 0⟩] [⟨7, 1, 10⟩]
      7 1 10 20 0 0 3 h1 h2).1
  · exact (C5_cooldown_exclusion_and_reeligibility.2 [⟨1, 0, 0⟩] [⟨7, 1, 10⟩]
      7 ⟨1, 0, 0⟩ 10 40 0 0 (List.mem_singleton.mpr rfl) hall h3).2

/-- C6: `nearest` (the auto-surface lookup) returns none exactly when no
cool-down-eligible POI lies within `RADIUS` of the position (distances being
the query's own `sqlDist`), and otherwise returns an eligible POI within the
radius, paired with its distance, that is nearest among all eligible POIs
within the radius. -/
theorem C6_auto_surface_nearest_within_radius :
    (∀ (pois : List POI) (visits : List Visit) (uid : ℤ) (lat lon : ℝ) (now : ℚ),
      nearest pois visits uid lat lon now = none ↔
        ∀ p ∈ pois, notVisitedRecently visits uid p.id now = true →
          ¬ sqlDist lat lon p.lat p.lon ≤ RADIUS) ∧
    (∀ (pois : List POI) (visits : List Visit) (uid : ℤ) (lat lon : ℝ) (now : ℚ)
        (p : POI) (d : ℝ),
      nearest pois visits uid lat lon now = some (p, d) →
        p ∈ pois ∧ notVisitedRecently visits uid p.id now = true ∧
        d = sqlDist lat lon p.lat p.lon ∧ d ≤ RADIUS ∧
        ∀ q ∈ pois, notVisitedRecently visits uid q.id now = true →
          sqlDist lat lon q.lat q.lon ≤ RADIUS →
            d ≤ sqlDist lat lon q.lat q.lon) := by
  constructor
  · intro pois visits uid lat lon now
    rw [nearest]
    simp only [Option.map_eq_none', List.head?_eq_none_iff]
    constructor
    · intro hnil p hp helig hrad
      have : p ∈ orderByDist lat lon (pois.filter fun q =>
          notVisitedRecently visits uid q.id now &&
            decide (sqlDist lat lon q.lat q.lon ≤ RADIUS)) :=
        mem_orderByDist.mpr (List.mem_filter.mpr ⟨hp, by
          simp only [Bool.and_eq_true, decide_eq_true_eq]
          exact ⟨helig, hrad⟩⟩)
      rw [hnil] at this
      simp at this
    · intro hno
      rcases hsort : orderByDist lat lon (pois.filter fun q =>
          notVisitedRecently visits uid q.id now &&
            decide (sqlDist lat lon q.lat q.lon ≤ RADIUS)) with _ | ⟨a, t⟩
      · rfl
      · exfalso
        have ha : a ∈ orderByDist lat lon (pois.filter fun q =>
            notVisitedRecently visits uid q.id now &&
              decide (sqlDist lat lon q.lat q.lon ≤ RADIUS)) := by
          rw [hsort]; exact List.mem_cons_self a t
        have ha' := List.mem_filter.mp (mem_orderByDist.mp ha)
        have hb := ha'.2
        simp only [Bool.and_eq_true, decide_eq_true_eq] at hb
        exact hno a ha'.1 hb.1 hb.2
  · intro pois visits uid lat lon now p d hsome
    rw [nearest] at hsome
    simp only [Option.map_eq_some'] at hsome
    obtain ⟨p0, hhead, heq⟩ := hsome
    have hpq : p0 = p ∧ sqlDist lat lon p0.lat p0.lon = d := by
      constructor
      · exact congrArg Prod.fst heq
      · exact congrArg Prod.snd heq
    obtain ⟨rfl, hd⟩ := hpq
    have hmem := List.mem_filter.mp (mem_orderByDist.mp (head?_mem hhead))
    have hb := hmem.2
    simp only [Bool.and_eq_true, decide_eq_true_eq] at hb
    refine ⟨hmem.1, hb.1, hd.symm, hd ▸ hb.2, ?_⟩
    intro q hq helig hrad
    have hq' : q ∈ pois.filter fun r =>
        notVisitedRecently visits uid r.id now &&
          decide (sqlDist lat lon r.lat r.lon ≤ RADIUS) :=
      List.mem_filter.mpr ⟨hq, by
        simp only [Bool.and_eq_true, decide_eq_true_eq]
        exact ⟨helig, hrad⟩⟩
    have := orderByDist_head_min hhead q hq'
    linarith [hd ▸ this]

/-- Evaluation of the auto-surface query on one POI at the user's exact
position: it is returned with distance `0`. -/
lemma nearest_singleton_eval :
    nearest [⟨1, 0, 0⟩] [] 7 0 0 0 = some (⟨1, 0, 0⟩, 0) := by
  have hz : sqlDist 0 0 0 0 = 0 := sqlDist_self 0 0
  have hcond : (notVisitedRecently [] 7 (1:ℤ) 0 &&
      decide ((0:ℝ) ≤ RADIUS)) = true := by
    have hdec : decide ((0:ℝ) ≤ RADIUS) = true :=
      decide_eq_true (by norm_num [RADIUS])
    simp [notVisitedRecently, hdec]
  rw [nearest]
  simp only [List.filter, hz, hcond, orderByDist_singleton, List.head?_cons,
    Option.map_some']

/-- Witness for the `nearest ... = some (p, d)` hypothesis of the C6
theorem: one eligible POI at the user's position is auto-surfaced. -/
theorem C6_auto_surface_witness :
    (⟨1, 0, 0⟩ : POI) ∈ [(⟨1, 0, 0⟩ : POI)] ∧ (0:ℝ) ≤ RADIUS := by
  have h := C6_auto_surface_nearest_within_radius.2 [⟨1, 0, 0⟩] [] 7 0 0 0
    ⟨1, 0, 0⟩ 0 nearest_singleton_eval
  exact ⟨h.1, h.2.2.2.1⟩

lemma favPref_irrefl (visits : List Visit) (uid q : ℤ) :
    ¬ favPref visits uid q q := by
  unfold favPref
  omega

/-- `favPref` is asymmetric-transitive in the way the fold needs: if `a`
beats `b` and does not beat `f`, then `b` does not beat `f`. -/
lemma favPref_pos_neg {visits : List Visit} {uid a b f : ℤ}
    (hab : favPref visits uid a b) (hnaf : ¬ favPref visits uid a f) :
    ¬ favPref visits uid b f := by
  unfold favPref at *
  omega

lemma favPref_neg_trans {visits : List Visit} {uid a b f : ℤ}
    (h1 : ¬ favPref visits uid a b) (h2 : ¬ favPref visits uid b f) :
    ¬ favPref visits uid a f := by
  unfold favPref at *
  omega

/-- Folding `favStep` from `some b0` yields the lex-min of
(−count, poi id) over `b0` and the remaining list. -/
lemma foldl_favStep (visits : List Visit) (uid : ℤ) :
    ∀ (l : List ℤ) (b0 : ℤ),
      ∃ f, l.foldl (favStep visits uid) (some b0) = some f ∧
        (f = b0 ∨ f ∈ l) ∧
        ∀ q, (q = b0 ∨ q ∈ l) → ¬ favPref visits uid q f := by
  intro l
  induction l with
  | nil =>
    intro b0
    refine ⟨b0, rfl, Or.inl rfl, ?_⟩
    rintro q (rfl | hq)
    · exact favPref_irrefl visits uid q
    · simp at hq
  | cons a t ih =>
    intro b0
    by_cases hab : favPref visits uid a b0
    · have hstep : favStep visits uid (some b0) a = some a := by
        simp [favStep, hab]
      obtain ⟨f, hf, hfm, hfb⟩ := ih a
      refine ⟨f, ?_, ?_, ?_⟩
      · rw [List.foldl_cons, hstep]; exact hf
      · rcases hfm with rfl | h
        · exact Or.inr (List.mem_cons_self f t)
        · exact Or.inr (List.mem_cons_of_mem a h)
      · rintro q (rfl | hq)
        · exact favPref_pos_neg hab (hfb a (Or.inl rfl))
        · rcases List.mem_cons.mp hq with rfl | hqt
          · exact hfb q (Or.inl rfl)
          · exact hfb q (Or.inr hqt)
    · have hstep : favStep visits uid (some b0) a = some b0 := by
        simp [favStep, hab]
      obtain ⟨f, hf, hfm, hfb⟩ := ih b0
      refine ⟨f, ?_, ?_, ?_⟩
      · rw [List.foldl_cons, hstep]; exact hf
      · rcases hfm with rfl | h
        · exact Or.inl rfl
        · exact Or.inr (List.mem_cons_of_mem a h)
      · rintro q (rfl | hq)
        · exact hfb q (Or.inl rfl)
        · rcases List.mem_cons.mp hq with rfl | hqt
          · exact favPref_neg_trans hab (hfb b0 (Or.inl rfl))
          · exact hfb q (Or.inr hqt)

/-- When the user has at least one group, `favoriteQuery` returns a group
that no other group beats. -/
lemma favoriteQuery_spec (visits : List Visit) (uid : ℤ)
    (hne : userPois visits uid ≠ []) :
    ∃ f, favoriteQuery visits uid = some f ∧ f ∈ userPois visits uid ∧
      ∀ q ∈ userPois visits uid, ¬ favPref visits uid q f := by
  rcases h : userPois visits uid with _ | ⟨a, t⟩
  · exact absurd h hne
  · unfold favoriteQuery
    rw [h, List.foldl_cons]
    have hstep : favStep visits uid none a = some a := rfl
    rw [hstep]
    obtain ⟨f, hf, hfm, hfb⟩ := foldl_favStep visits uid t a
    refine ⟨f, hf, ?_, ?_⟩
    · rcases hfm with rfl | hft
      · exact List.mem_cons_self f t
      · exact List.mem_cons_of_mem a hft
    · intro q hq
      rcases List.mem_cons.mp hq with rfl | hqt
      · exact hfb q (Or.inl rfl)
      · exact hfb q (Or.inr hqt)

/-- Membership in the grouped poi ids is a positive visit count. -/
lemma mem_userPois_iff (visits : List Visit) (uid q : ℤ) :
    q ∈ userPois visits uid ↔ 0 < visitCount visits uid q := by
  unfold userPois visitCount
  rw [List.mem_dedup, List.mem_map]
  constructor
  · rintro ⟨v, hv, rfl⟩
    have hvf := List.mem_filter.mp hv
    have hv2 : v ∈ visits.filter fun w => w.user_id == uid && w.poi_id == v.poi_id :=
      List.mem_filter.mpr ⟨hvf.1, by simp [hvf.2, beq_iff_eq.mp hvf.2]⟩
    exact List.length_pos.mpr (List.ne_nil_of_mem hv2)
  · intro hpos
    obtain ⟨v, hv⟩ := List.exists_mem_of_ne_nil _ (List.length_pos.mp hpos)
    have hvf := List.mem_filter.mp hv
    have hb := hvf.2
    simp only [Bool.and_eq_true, beq_iff_eq] at hb
    exact ⟨v, List.mem_filter.mpr ⟨hvf.1, by simp [hb.1]⟩, hb.2⟩

/-- Counts are insensitive to which stats row was stored. -/
lemma mark_visit_visits (now : ℚ) (uid pid : ℤ) (st : ServerState) :
    (mark_visit now uid pid st).visits = st.visits ++ [⟨uid, pid, now⟩] := rfl

/-- C8, counterexample: the user visits POI 2 (favorite becomes 2), then
POI 1; the counts tie at one each and the previous favorite 2 is among the
tied maximum, but the recomputation — which never reads the stored
favorite — returns POI 1. -/
theorem C8_counterexample_tie_ignores_previous_favorite :
    ((mark_visit 1 7 2 ⟨none, [], none⟩).stats.map StatsRow.favorite_poi_id =
      some (some 2)) ∧
    visitCount (mark_visit 2 7 1 (mark_visit 1 7 2 ⟨none, [], none⟩)).visits 7 2 =
      visitCount (mark_visit 2 7 1 (mark_visit 1 7 2 ⟨none, [], none⟩)).visits 7 1 ∧
    ((mark_visit 2 7 1 (mark_visit 1 7 2 ⟨none, [], none⟩)).stats.map
      StatsRow.favorite_poi_id = some (some 1)) := by
  refine ⟨?_, ?_, ?_⟩ <;> rfl

/-- C8, amended: after every recorded visit, `favorite_poi_id` is
recomputed from the visit log alone as a POI with the maximum visit count
for that user; the previously recorded favorite is not consulted, and a tie
among max-count POIs resolves to the query's group order, modelled as the
lowest POI id (so the returned favorite is the least id among the tied
maximum). -/
theorem C8_favorite_is_least_argmax :
    ∀ (st : ServerState) (now : ℚ) (uid pid : ℤ),
      ∃ f, (mark_visit now uid pid st).stats.map StatsRow.favorite_poi_id =
          some (some f) ∧
        (∀ q : ℤ, visitCount (mark_visit now uid pid st).visits uid q ≤
          visitCount (mark_visit now uid pid st).visits uid f) ∧
        (∀ q : ℤ, visitCount (mark_visit now uid pid st).visits uid q =
          visitCount (mark_visit now uid pid st).visits uid f → f ≤ q) := by
  intro st now uid pid
  set visits' := st.visits ++ [(⟨uid, pid, now⟩ : Visit)] with hv
  have hpid : pid ∈ userPois visits' uid := by
    rw [mem_userPois_iff]
    have : (⟨uid, pid, now⟩ : Visit) ∈ visits'.filter fun w =>
        w.user_id == uid && w.poi_id == pid := by
      refine List.mem_filter.mpr ⟨?_, by simp⟩
      simp [hv]
    exact List.length_pos.mpr (List.ne_nil_of_mem this)
  obtain ⟨f, hfq, hfm, hfb⟩ := favoriteQuery_spec visits' uid
    (List.ne_nil_of_mem hpid)
  have hfpos : 0 < visitCount visits' uid f := (mem_userPois_iff _ _ _).mp hfm
  have hbest : ∀ q : ℤ, visitCount visits' uid q ≤ visitCount visits' uid f ∧
      (visitCount visits' uid q = visitCount visits' uid f → f ≤ q) := by
    intro q
    by_cases hq : q ∈ userPois visits' uid
    · have := hfb q hq
      unfold favPref at this
      omega
    · rw [mem_userPois_iff] at hq
      push_neg at hq
      simp only [Nat.le_zero] at hq
      constructor
      · omega
      · intro heq
        omega
  refine ⟨f, ?_, fun q => (hbest q).1, fun q => (hbest q).2⟩
  show (update_visit_stats now uid
      { st with visits := st.visits ++ [⟨uid, pid, now⟩] }).stats.map
    StatsRow.favorite_poi_id = some (some f)
  unfold update_visit_stats
  simp only [← hv, hfq]
  rfl

end Pushkin
